import Mathlib

/-!
Shallow embedding of the CVFMS admin provisioning and access-gating logic:
the admin register-or-recover flow (`handleSubmit`, `handleGoogleRegister`,
`setupAdminProfile`), the user-registration profile save (`saveUserProfile`
with its `withTimeout` race), the registration-code readers
(`fetchAdminCode`, `fetchData`) and the access-code rotation
(`handleExecute`).  Profiles live in a document store with merge-write
semantics: a merge overwrites exactly the fields present in the write and
leaves the others untouched; a field whose value is `undefined` in the
source is treated as absent from the write.
-/

namespace CVFMS

/-- A stored profile document (`users/{uid}`).  Every field is optional
because documents are schemaless JSON records; timestamps are modelled as
natural numbers. -/
structure Profile where
  uid : Option String := none
  email : Option String := none
  name : Option String := none
  phone : Option String := none
  role : Option String := none
  status : Option String := none
  authProvider : Option String := none
  createdAt : Option Nat := none
  restoredAt : Option Nat := none
deriving DecidableEq

/-- The field set passed to a merge-write (`setDoc` with `merge: true`).
`none` means the field is not part of the write (including a field whose
value is `undefined` at the call site). -/
structure ProfileWrite where
  uid : Option String := none
  email : Option String := none
  name : Option String := none
  phone : Option String := none
  role : Option String := none
  status : Option String := none
  authProvider : Option String := none
  createdAt : Option Nat := none
  restoredAt : Option Nat := none
deriving DecidableEq

/-- One field of a merge: a value present in the write overwrites, an
absent one keeps the stored value. -/
def mergeField {α : Type} (old : Option α) (new : Option α) : Option α :=
  match new with
  | some v => some v
  | none => old

/-- The profile a merge-write leaves in the store: starting point is the
existing document, or an empty one when the document is absent. -/
def mergeProfile (old : Option Profile) (w : ProfileWrite) : Profile :=
  let base : Profile := match old with | some p => p | none => {}
  { uid := mergeField base.uid w.uid,
    email := mergeField base.email w.email,
    name := mergeField base.name w.name,
    phone := mergeField base.phone w.phone,
    role := mergeField base.role w.role,
    status := mergeField base.status w.status,
    authProvider := mergeField base.authProvider w.authProvider,
    createdAt := mergeField base.createdAt w.createdAt,
    restoredAt := mergeField base.restoredAt w.restoredAt }

/-- The field set written by `AdminRegistration.setupAdminProfile`:
`uid`, `email`, `role: 'admin'`, `status: 'active'`; `createdAt` only on
a fresh provisioning (`undefined` when restoring), `restoredAt` only when
restoring (`undefined` otherwise).  `authProvider` is not in the write. -/
def setupAdminProfile (uid email : String) (now : Nat) (isRestore : Bool) :
    ProfileWrite :=
  { uid := some uid,
    email := some email,
    role := some "admin",
    status := some "active",
    createdAt := if isRestore then none else some now,
    restoredAt := if isRestore then some now else none }

/-- The field set written by `UserRegistration.saveUserProfile`:
`uid`, `email`, `name` (form full name, else display name, else `User`),
`phone`, `role: 'user'`, `authProvider`, and `createdAt` set to the
current time on every call. -/
def saveUserProfile (uid email displayName fullName phone : String)
    (isGoogle : Bool) (now : Nat) : ProfileWrite :=
  { uid := some uid,
    email := some email,
    name := some (if fullName = "" then
        (if displayName = "" then "User" else displayName) else fullName),
    phone := some phone,
    role := some "user",
    authProvider := some (if isGoogle then "google" else "email"),
    createdAt := some now }

/-- An identity-provider account: the uid it was issued and the password
it authenticates with. -/
structure Account where
  uid : String
  password : String
deriving DecidableEq

/-- The remote operations a flow can perform, in the order it performs
them. -/
inductive RemoteCall where
  | createUser
  | signIn
  | getDoc
  | setDoc
  | signOutCall
  | popup
deriving DecidableEq

/-- The terminal outcome of the admin register-or-recover flow, one per
user-visible message of the source. -/
inductive RegResult where
  | codeMismatch
  | passwordMismatch
  | weakPassword
  | created
  | restored
  | incorrectCredential
  | denied
deriving DecidableEq

/-- The form data of `AdminRegistration.handleSubmit`. -/
structure RegInput where
  email : String
  password : String
  confirmPassword : String
  adminCode : String
deriving DecidableEq

/-- The observable effect of one run of the email/password flow: terminal
result, identity-provider state, store state, the remote calls made, and
whether a sign-out was performed. -/
structure FlowResult where
  result : RegResult
  auth : String → Option Account
  users : String → Option Profile
  calls : List RemoteCall
  signedOut : Bool

/-- Store update at one key. -/
def setUser (users : String → Option Profile) (k : String) (p : Profile) :
    String → Option Profile :=
  fun k2 => if k2 = k then some p else users k2

/-- Identity-provider update at one email. -/
def setAccount (auth : String → Option Account) (e : String) (a : Account) :
    String → Option Account :=
  fun e2 => if e2 = e then some a else auth e2

/-- The ban check of the source: `userDoc.exists() &&
userDoc.data().status === 'banned'`. -/
def isBannedDoc (p : Option Profile) : Bool :=
  match p with
  | some q => decide (q.status = some "banned")
  | none => false

/-- `AdminRegistration.handleSubmit`: validate (access code, password
match, password length), then attempt creation; on `email-already-in-use`
log in with the supplied password, run the ban check on the stored
profile, and either deny with a sign-out or restore the profile.  The
store write is assumed to resolve; its timing and failure behaviour is
modelled separately by the upsert-outcome definitions. -/
def handleSubmit (inp : RegInput) (systemAdminCode freshUid : String)
    (now : Nat) (auth : String → Option Account)
    (users : String → Option Profile) : FlowResult :=
  if inp.adminCode ≠ systemAdminCode then
    ⟨.codeMismatch, auth, users, [], false⟩
  else if inp.password ≠ inp.confirmPassword then
    ⟨.passwordMismatch, auth, users, [], false⟩
  else if inp.password.length < 6 then
    ⟨.weakPassword, auth, users, [], false⟩
  else
    match auth inp.email with
    | none =>
      ⟨.created,
        setAccount auth inp.email ⟨freshUid, inp.password⟩,
        setUser users freshUid
          (mergeProfile (users freshUid)
            (setupAdminProfile freshUid inp.email now false)),
        [.createUser, .setDoc], false⟩
    | some acct =>
      if inp.password = acct.password then
        if isBannedDoc (users acct.uid) then
          ⟨.denied, auth, users,
            [.createUser, .signIn, .getDoc, .signOutCall], true⟩
        else
          ⟨.restored, auth,
            setUser users acct.uid
              (mergeProfile (users acct.uid)
                (setupAdminProfile acct.uid inp.email now true)),
            [.createUser, .signIn, .getDoc, .setDoc], false⟩
      else
        ⟨.incorrectCredential, auth, users, [.createUser, .signIn], false⟩

/-- The federated identity returned by the provider popup. -/
structure GoogleUser where
  uid : String
  email : String
deriving DecidableEq

/-- The observable effect of one run of the federated flow. -/
structure GoogleFlowResult where
  result : RegResult
  users : String → Option Profile
  calls : List RemoteCall
  signedOut : Bool

/-- `AdminRegistration.handleGoogleRegister`: check the access code
before initiating the popup, then run the ban check on the stored profile
of the federated identity; deny with a sign-out when banned, otherwise
restore the profile (always with `isRestore = true`). -/
def handleGoogleRegister (adminCode systemAdminCode : String)
    (g : GoogleUser) (now : Nat) (users : String → Option Profile) :
    GoogleFlowResult :=
  if adminCode ≠ systemAdminCode then
    ⟨.codeMismatch, users, [], false⟩
  else if isBannedDoc (users g.uid) then
    ⟨.denied, users, [.popup, .getDoc, .signOutCall], true⟩
  else
    ⟨.restored,
      setUser users g.uid
        (mergeProfile (users g.uid)
          (setupAdminProfile g.uid g.email now true)),
      [.popup, .getDoc, .setDoc], false⟩

/-- The `settings/admin_config` document; its `registrationKey` field may
be absent. -/
structure ConfigDoc where
  registrationKey : Option String := none
deriving DecidableEq

/-- `AdminRegistration.fetchAdminCode`: the code the registration flow
validates against — the stored `registrationKey` when the document exists
and the field is truthy (present and nonempty), else `ADMIN2025`. -/
def fetchAdminCode (cfg : Option ConfigDoc) : String :=
  match cfg with
  | some d =>
    match d.registrationKey with
    | some k => if k = "" then "ADMIN2025" else k
    | none => "ADMIN2025"
  | none => "ADMIN2025"

/-- `AdminManagement.fetchData`, registration-key part: the code the
roster displays — `registrationKey || "Not Set"` when the document
exists, else `ADMIN2025`. -/
def fetchData (cfg : Option ConfigDoc) : String :=
  match cfg with
  | some d =>
    match d.registrationKey with
    | some k => if k = "" then "Not Set" else k
    | none => "Not Set"
  | none => "ADMIN2025"

/-- Outcome of `AdminManagement.handleExecute` in the
`update-reg-key` case. -/
inductive ExecResult where
  | validationError
  | updated
  | dbError
deriving DecidableEq

/-- Merge-write of `{ registrationKey: v }` into `settings/admin_config`. -/
def mergeConfig (_cfg : Option ConfigDoc) (v : String) : ConfigDoc :=
  { registrationKey := some v }

/-- `AdminManagement.handleExecute`, `update-reg-key` case: reject codes
shorter than 5 characters before any write; otherwise attempt the
merge-write (`writeOk` models whether the store accepts it; a store
failure surfaces as a database error, not a validation error). -/
def handleExecute (newValueInput : String) (writeOk : Bool)
    (cfg : Option ConfigDoc) : ExecResult × Option ConfigDoc :=
  if newValueInput.length < 5 then (.validationError, cfg)
  else if writeOk then (.updated, some (mergeConfig cfg newValueInput))
  else (.dbError, cfg)

/-- How a profile upsert looks to its caller: when (if ever) the awaited
call settles, and whether it throws into the caller. -/
structure UpsertOutcome where
  time : Option Nat
  throws : Bool
deriving DecidableEq

/-- `UserRegistration.withTimeout`: race the store write (settling at
time `t` with success flag `ok`, or never when `t = none`) against a
timer of `ms` milliseconds that rejects. -/
def withTimeout (t : Option Nat) (ok : Bool) (ms : Nat) : UpsertOutcome :=
  match t with
  | none => ⟨some ms, true⟩
  | some tt => if tt ≤ ms then ⟨some tt, !ok⟩ else ⟨some ms, true⟩

/-- The upsert of `UserRegistration.saveUserProfile` as its caller sees
it: the write raced against a 5000 ms timer, with every failure caught. -/
def saveUserProfileUpsert (t : Option Nat) (ok : Bool) : UpsertOutcome :=
  { time := (withTimeout t ok 5000).time, throws := false }

/-- The upsert of `AdminRegistration.setupAdminProfile` as its caller
sees it: the write awaited directly, with no timer and no catch. -/
def setupAdminProfileUpsert (t : Option Nat) (ok : Bool) : UpsertOutcome :=
  match t with
  | none => ⟨none, false⟩
  | some tt => ⟨some tt, !ok⟩

/-- The upsert settles within `ms` milliseconds. -/
def timeBounded (o : UpsertOutcome) (ms : Nat) : Bool :=
  match o.time with
  | some t => decide (t ≤ ms)
  | none => false

/-- Sample identity-provider account used by concrete instances. -/
def sampleAcct : Account := ⟨"u1", "secret1"⟩

/-- Identity provider holding exactly `sampleAcct` under `a@b.c`. -/
def sampleAuth : String → Option Account :=
  fun e => if e = "a@b.c" then some sampleAcct else none

/-- Empty identity provider. -/
def emptyAuth : String → Option Account := fun _ => none

/-- A stored profile whose status is `banned`. -/
def bannedProfile : Profile :=
  { uid := some "u1", email := some "a@b.c", role := some "admin",
    status := some "banned", createdAt := some 1 }

/-- Store holding exactly `bannedProfile` under `u1`. -/
def bannedUsers : String → Option Profile :=
  fun k => if k = "u1" then some bannedProfile else none

/-- A stored profile whose status is `active`, with every optional field
populated. -/
def activeProfile : Profile :=
  { uid := some "u1", email := some "a@b.c", name := some "Al",
    phone := some "077", role := some "user", status := some "active",
    authProvider := some "email", createdAt := some 1 }

/-- Store holding exactly `activeProfile` under `u1`. -/
def activeUsers : String → Option Profile :=
  fun k => if k = "u1" then some activeProfile else none

/-- Empty store. -/
def emptyUsers : String → Option Profile := fun _ => none

/-- Sample valid form input for the admin flow. -/
def sampleInput : RegInput := ⟨"a@b.c", "secret1", "secret1", "CODE"⟩

/-- Sample federated identity matching `sampleAcct`. -/
def sampleG : GoogleUser := ⟨"u1", "a@b.c"⟩

/-- The configuration states on which the two registration-code readers
diverge: the document exists but its `registrationKey` field is absent or
empty. -/
def regKeyDivergent (cfg : Option ConfigDoc) : Bool :=
  match cfg with
  | some d =>
    match d.registrationKey with
    | some k => decide (k = "")
    | none => true
  | none => false

/-- C2 counterexample: running the user-registration profile save twice on
the same identity (first at time 1, again — a federated re-sign-in — at
time 2) overwrites `createdAt`, because `saveUserProfile` puts
`createdAt: new Date().toISOString()` into every merge-write. -/
theorem c2_createdAt_overwritten :
    (mergeProfile
        (some (mergeProfile none (saveUserProfile "u1" "a@b.c" "Al" "Al" "077" false 1)))
        (saveUserProfile "u1" "a@b.c" "Al" "Al" "077" true 2)).createdAt ≠
      (mergeProfile none (saveUserProfile "u1" "a@b.c" "Al" "Al" "077" false 1)).createdAt := by
  decide

/-- C2 amended: the admin restore merge (`setupAdminProfile` with
`isRestore = true`) never overwrites `createdAt` and is the only write
that sets `restoredAt`; the fresh admin write sets `createdAt` and leaves
`restoredAt` absent; but the user-registration save (`saveUserProfile`)
writes `createdAt` on every call, so a later user-flow merge overwrites
it. -/
theorem c2_amended (p : Profile) (uid email displayName fullName phone : String)
    (isGoogle : Bool) (now : Nat) :
    (mergeProfile (some p) (setupAdminProfile uid email now true)).createdAt = p.createdAt ∧
    (mergeProfile (some p) (setupAdminProfile uid email now true)).restoredAt = some now ∧
    (mergeProfile none (setupAdminProfile uid email now false)).createdAt = some now ∧
    (mergeProfile none (setupAdminProfile uid email now false)).restoredAt = none ∧
    (mergeProfile (some p) (setupAdminProfile uid email now false)).restoredAt = p.restoredAt ∧
    (mergeProfile (some p)
      (saveUserProfile uid email displayName fullName phone isGoogle now)).restoredAt =
        p.restoredAt ∧
    (mergeProfile (some p)
      (saveUserProfile uid email displayName fullName phone isGoogle now)).createdAt =
        some now := by
  simp [mergeProfile, mergeField, setupAdminProfile, saveUserProfile]

/-- C7 counterexample: the admin flow's profile upsert
(`setupAdminProfile`, awaited with no timer) is not bounded by the
5-second timeout — under a store that never resolves it never completes —
and a store failure throws into the caller instead of letting the flow
proceed. -/
theorem c7_admin_upsert_unbounded :
    timeBounded (setupAdminProfileUpsert none true) 5000 = false ∧
    (setupAdminProfileUpsert (some 10) false).throws = true := by
  decide

/-- C7 amended: only the user-registration flow's profile save is
timeout-bounded and best-effort — `saveUserProfile` completes within the
5000 ms bound for every store behaviour, including one that never
resolves, and never throws; the admin flow's `setupAdminProfile` awaits
the write with no timeout, so it completes exactly when the store does
(never, for a store that never resolves) and a store failure throws. -/
theorem c7_amended (t : Option Nat) (ok : Bool) :
    timeBounded (saveUserProfileUpsert t ok) 5000 = true ∧
    (saveUserProfileUpsert t ok).throws = false ∧
    (setupAdminProfileUpsert none ok).time = none ∧
    (setupAdminProfileUpsert t false).throws = t.isSome := by
  refine ⟨?_, rfl, rfl, ?_⟩
  · cases t with
    | none => simp [timeBounded, saveUserProfileUpsert, withTimeout]
    | some tt =>
      by_cases h : tt ≤ 5000
      · simp [timeBounded, saveUserProfileUpsert, withTimeout, h]
      · simp [timeBounded, saveUserProfileUpsert, withTimeout, h]
  · cases t <;> rfl

/-- C10 counterexample: when the configuration document exists but its
`registrationKey` is absent (or empty), the registration flow validates
against the `ADMIN2025` fallback while the roster displays `Not Set`, so
the two readers disagree. -/
theorem c10_readers_disagree :
    fetchAdminCode (some ⟨none⟩) ≠ fetchData (some ⟨none⟩) ∧
    fetchAdminCode (some ⟨some ""⟩) ≠ fetchData (some ⟨some ""⟩) := by
  decide

/-- C10 amended: the registration-code reader and the roster reader agree
exactly when the configuration record is absent (both fall back to
`ADMIN2025`) or carries a nonempty `registrationKey` (both return it);
when the record exists with the field absent or empty, registration uses
`ADMIN2025` while the roster shows `Not Set`. -/
theorem c10_amended (cfg : Option ConfigDoc) :
    fetchAdminCode cfg = fetchData cfg ↔ regKeyDivergent cfg = false := by
  cases cfg with
  | none => simp [fetchAdminCode, fetchData, regKeyDivergent]
  | some d =>
    cases h : d.registrationKey with
    | none => simp [fetchAdminCode, fetchData, regKeyDivergent, h]
    | some k =>
      by_cases hk : k = ""
      · simp [fetchAdminCode, fetchData, regKeyDivergent, h, hk]
      · simp [fetchAdminCode, fetchData, regKeyDivergent, h, hk]

/-- C8: rotating the registration access code fails with a validation
error exactly when the new code is shorter than 5 characters — in that
case no write occurs — and otherwise (store accepting the write) the code
is persisted and visible to both subsequent readers. -/
theorem c8_set_access_code (newValue shortValue : String)
    (cfg cfg2 : Option ConfigDoc)
    (h5 : ¬ newValue.length < 5) (hshort : shortValue.length < 5) :
    (handleExecute shortValue true cfg2).1 = .validationError ∧
    (handleExecute shortValue true cfg2).2 = cfg2 ∧
    (handleExecute newValue true cfg).1 = .updated ∧
    (handleExecute newValue true cfg).1 ≠ .validationError ∧
    fetchAdminCode (handleExecute newValue true cfg).2 = newValue ∧
    fetchData (handleExecute newValue true cfg).2 = newValue := by
  have hne : newValue ≠ "" := by
    intro h
    rw [h] at h5
    exact h5 (by decide)
  refine ⟨?_, ?_, ?_, ?_, ?_, ?_⟩ <;>
    simp [handleExecute, hshort, h5, fetchAdminCode, fetchData, mergeConfig, hne]

/-- Witness for `c8_set_access_code`: `set("ab")` fails with the
validation error and leaves the configuration untouched; `set("abcde")`
succeeds and `abcde` is what both readers return next. -/
theorem c8_set_access_code_witness :
    (handleExecute "ab" true none).1 = .validationError ∧
    (handleExecute "ab" true none).2 = none ∧
    (handleExecute "abcde" true none).1 = .updated ∧
    (handleExecute "abcde" true none).1 ≠ .validationError ∧
    fetchAdminCode (handleExecute "abcde" true none).2 = "abcde" ∧
    fetchData (handleExecute "abcde" true none).2 = "abcde" :=
  c8_set_access_code "abcde" "ab" none none (by decide) (by decide)

/-- C5: on any validation failure the admin flow returns before making
any remote call, with the identity provider and the store untouched, and
the failures are detected in the order access-code mismatch, then
password mismatch, then weak password. -/
theorem c5_validation_order (inp : RegInput) (sysCode freshUid : String)
    (now : Nat) (auth : String → Option Account)
    (users : String → Option Profile)
    (hbad : inp.adminCode ≠ sysCode ∨ inp.password ≠ inp.confirmPassword ∨
      inp.password.length < 6) :
    (handleSubmit inp sysCode freshUid now auth users).calls = [] ∧
    (handleSubmit inp sysCode freshUid now auth users).auth = auth ∧
    (handleSubmit inp sysCode freshUid now auth users).users = users ∧
    (handleSubmit inp sysCode freshUid now auth users).signedOut = false ∧
    (handleSubmit inp sysCode freshUid now auth users).result =
      (if inp.adminCode ≠ sysCode then .codeMismatch
       else if inp.password ≠ inp.confirmPassword then .passwordMismatch
       else .weakPassword) := by
  unfold handleSubmit
  by_cases h1 : inp.adminCode ≠ sysCode
  · simp [h1]
  · by_cases h2 : inp.password ≠ inp.confirmPassword
    · simp [h1, h2]
    · have h3 : inp.password.length < 6 := by
        rcases hbad with h | h | h
        · exact absurd h h1
        · exact absurd h h2
        · exact h
      simp [h1, h2, h3]

/-- Witness for `c5_validation_order`: a wrong access code together with
mismatched passwords reports the code mismatch first, with no remote call
and no state change. -/
theorem c5_validation_order_witness :
    (handleSubmit ⟨"a@b.c", "secret1", "other", "WRONG"⟩ "CODE" "u9" 5
        emptyAuth emptyUsers).calls = [] ∧
    (handleSubmit ⟨"a@b.c", "secret1", "other", "WRONG"⟩ "CODE" "u9" 5
        emptyAuth emptyUsers).auth = emptyAuth ∧
    (handleSubmit ⟨"a@b.c", "secret1", "other", "WRONG"⟩ "CODE" "u9" 5
        emptyAuth emptyUsers).users = emptyUsers ∧
    (handleSubmit ⟨"a@b.c", "secret1", "other", "WRONG"⟩ "CODE" "u9" 5
        emptyAuth emptyUsers).signedOut = false ∧
    (handleSubmit ⟨"a@b.c", "secret1", "other", "WRONG"⟩ "CODE" "u9" 5
        emptyAuth emptyUsers).result =
      (if ("WRONG" : String) ≠ "CODE" then .codeMismatch
       else if ("secret1" : String) ≠ "other" then .passwordMismatch
       else .weakPassword) :=
  c5_validation_order ⟨"a@b.c", "secret1", "other", "WRONG"⟩ "CODE" "u9" 5
    emptyAuth emptyUsers (Or.inl (by decide))

/-- C6: recovering an existing identity with a wrong password terminates
with the incorrect-credential outcome; neither the identity provider nor
the store is mutated, no sign-out happens, and the only remote calls are
the failed creation and the failed login. -/
theorem c6_wrong_password (inp : RegInput) (sysCode freshUid : String)
    (now : Nat) (auth : String → Option Account)
    (users : String → Option Profile) (acct : Account)
    (hcode : inp.adminCode = sysCode)
    (hpw : inp.password = inp.confirmPassword)
    (hlen : ¬ inp.password.length < 6)
    (hacct : auth inp.email = some acct)
    (hwrong : inp.password ≠ acct.password) :
    (handleSubmit inp sysCode freshUid now auth users).result =
      .incorrectCredential ∧
    (handleSubmit inp sysCode freshUid now auth users).auth = auth ∧
    (handleSubmit inp sysCode freshUid now auth users).users = users ∧
    (handleSubmit inp sysCode freshUid now auth users).signedOut = false ∧
    (handleSubmit inp sysCode freshUid now auth users).calls =
      [.createUser, .signIn] := by
  unfold handleSubmit
  simp [hcode, ← hpw, hlen, hacct, hwrong]

/-- Witness for `c6_wrong_password`: the sample account under a wrong
password yields the incorrect-credential outcome with no mutation. -/
theorem c6_wrong_password_witness :
    (handleSubmit ⟨"a@b.c", "badpass", "badpass", "CODE"⟩ "CODE" "u9" 5
        sampleAuth activeUsers).result = .incorrectCredential ∧
    (handleSubmit ⟨"a@b.c", "badpass", "badpass", "CODE"⟩ "CODE" "u9" 5
        sampleAuth activeUsers).auth = sampleAuth ∧
    (handleSubmit ⟨"a@b.c", "badpass", "badpass", "CODE"⟩ "CODE" "u9" 5
        sampleAuth activeUsers).users = activeUsers ∧
    (handleSubmit ⟨"a@b.c", "badpass", "badpass", "CODE"⟩ "CODE" "u9" 5
        sampleAuth activeUsers).signedOut = false ∧
    (handleSubmit ⟨"a@b.c", "badpass", "badpass", "CODE"⟩ "CODE" "u9" 5
        sampleAuth activeUsers).calls = [.createUser, .signIn] :=
  c6_wrong_password ⟨"a@b.c", "badpass", "badpass", "CODE"⟩ "CODE" "u9" 5
    sampleAuth activeUsers sampleAcct rfl rfl (by decide) (by decide) (by decide)

/-- C3 counterexample: a run of the admin flow with a correct access
code, matching passwords of length at least 6 and a brand-new email does
return the created outcome, but the profile it writes has no
`authProvider` field at all — `setupAdminProfile` never writes
`authProvider`, so it is not `email`. -/
theorem c3_authProvider_absent :
    (handleSubmit sampleInput "CODE" "u9" 5 emptyAuth emptyUsers).result =
      .created ∧
    Option.map Profile.authProvider
      ((handleSubmit sampleInput "CODE" "u9" 5 emptyAuth emptyUsers).users "u9") =
      some none := by
  decide

/-- C3 amended: with a correct access code, matching passwords of length
at least 6 and a brand-new email, the flow returns the created outcome
and writes a profile with `role = admin`, `status = active`, `createdAt`
set to the current time, and `restoredAt`, `authProvider`, `name` and
`phone` all absent. -/
theorem c3_fresh_registration (inp : RegInput) (sysCode freshUid : String)
    (now : Nat) (auth : String → Option Account)
    (users : String → Option Profile)
    (hcode : inp.adminCode = sysCode)
    (hpw : inp.password = inp.confirmPassword)
    (hlen : ¬ inp.password.length < 6)
    (hfresh : auth inp.email = none)
    (hnodoc : users freshUid = none) :
    (handleSubmit inp sysCode freshUid now auth users).result = .created ∧
    (handleSubmit inp sysCode freshUid now auth users).users freshUid =
      some { uid := some freshUid, email := some inp.email,
             role := some "admin", status := some "active",
             createdAt := some now } ∧
    (handleSubmit inp sysCode freshUid now auth users).signedOut = false := by
  unfold handleSubmit
  simp [hcode, ← hpw, hlen, hfresh, hnodoc, setUser, mergeProfile, mergeField,
    setupAdminProfile]

/-- Witness for `c3_fresh_registration` on the sample input over an empty
provider and store. -/
theorem c3_fresh_registration_witness :
    (handleSubmit sampleInput "CODE" "u9" 5 emptyAuth emptyUsers).result =
      .created ∧
    (handleSubmit sampleInput "CODE" "u9" 5 emptyAuth emptyUsers).users "u9" =
      some { uid := some "u9", email := some "a@b.c",
             role := some "admin", status := some "active",
             createdAt := some 5 } ∧
    (handleSubmit sampleInput "CODE" "u9" 5 emptyAuth emptyUsers).signedOut =
      false :=
  c3_fresh_registration sampleInput "CODE" "u9" 5 emptyAuth emptyUsers
    rfl rfl (by decide) (by decide) (by decide)

/-- C4: recovering an existing, non-banned identity with the correct
password returns the restored outcome, and the merge-write leaves the
stored profile equal to the old one with exactly `role`, `status` and
`restoredAt` updated — in particular `createdAt`, `name`, `phone` and
`authProvider` from the first provisioning are unchanged. -/
theorem c4_restore_frame (inp : RegInput) (sysCode freshUid : String)
    (now : Nat) (auth : String → Option Account)
    (users : String → Option Profile) (acct : Account) (p : Profile)
    (hcode : inp.adminCode = sysCode)
    (hpw : inp.password = inp.confirmPassword)
    (hlen : ¬ inp.password.length < 6)
    (hacct : auth inp.email = some acct)
    (hlogin : inp.password = acct.password)
    (hdoc : users acct.uid = some p)
    (hnotban : ¬ p.status = some "banned")
    (huid : p.uid = some acct.uid)
    (hemail : p.email = some inp.email) :
    (handleSubmit inp sysCode freshUid now auth users).result = .restored ∧
    (handleSubmit inp sysCode freshUid now auth users).users acct.uid =
      some { p with
        role := some "admin", status := some "active",
        restoredAt := some now } ∧
    Option.map Profile.createdAt
      ((handleSubmit inp sysCode freshUid now auth users).users acct.uid) =
      some p.createdAt := by
  have hl : ¬ acct.password.length < 6 := by rw [← hlogin]; exact hlen
  unfold handleSubmit
  simp [hcode, ← hpw, hlen, hl, hacct, hlogin, isBannedDoc, hdoc, hnotban,
    setUser, mergeProfile, mergeField, setupAdminProfile, huid, hemail]

/-- Witness for `c4_restore_frame`: recovering the sample account over
the fully populated active profile keeps `createdAt`, `name`, `phone` and
`authProvider` and updates only `role`, `status` and `restoredAt`. -/
theorem c4_restore_frame_witness :
    (handleSubmit sampleInput "CODE" "u9" 5 sampleAuth activeUsers).result =
      .restored ∧
    (handleSubmit sampleInput "CODE" "u9" 5 sampleAuth activeUsers).users "u1" =
      some { activeProfile with
        role := some "admin", status := some "active",
        restoredAt := some 5 } ∧
    Option.map Profile.createdAt
      ((handleSubmit sampleInput "CODE" "u9" 5 sampleAuth activeUsers).users "u1") =
      some activeProfile.createdAt :=
  c4_restore_frame sampleInput "CODE" "u9" 5 sampleAuth activeUsers sampleAcct
    activeProfile rfl rfl (by decide) (by decide) (by decide) (by decide)
    (by decide) (by decide) (by decide)

/-- C9: on both recovery branches the ban check denies exactly when the
stored profile document exists with `status = banned`; when the document
is absent the flow proceeds and restores a profile whose `status` is
`active`, in the email branch and in the federated branch alike. -/
theorem c9_absent_doc_not_banned
    (inp : RegInput) (sysCode freshUid : String) (now : Nat)
    (auth : String → Option Account) (users : String → Option Profile)
    (acct : Account)
    (inp2 : RegInput) (sysCode2 freshUid2 : String) (now2 : Nat)
    (auth2 : String → Option Account) (users2 : String → Option Profile)
    (acct2 : Account)
    (gcode gsys : String) (g : GoogleUser) (gnow : Nat)
    (gusers : String → Option Profile)
    (gcode2 gsys2 : String) (g2 : GoogleUser) (gnow2 : Nat)
    (gusers2 : String → Option Profile)
    (hcode : inp.adminCode = sysCode)
    (hpw : inp.password = inp.confirmPassword)
    (hlen : ¬ inp.password.length < 6)
    (hacct : auth inp.email = some acct)
    (hlogin : inp.password = acct.password)
    (hcode2 : inp2.adminCode = sysCode2)
    (hpw2 : inp2.password = inp2.confirmPassword)
    (hlen2 : ¬ inp2.password.length < 6)
    (hacct2 : auth2 inp2.email = some acct2)
    (hlogin2 : inp2.password = acct2.password)
    (hnodoc2 : users2 acct2.uid = none)
    (hgcode : gcode = gsys)
    (hgnodoc : gusers g.uid = none)
    (hgcode2 : gcode2 = gsys2) :
    ((handleSubmit inp sysCode freshUid now auth users).result = .denied ↔
      isBannedDoc (users acct.uid) = true) ∧
    (handleSubmit inp2 sysCode2 freshUid2 now2 auth2 users2).result =
      .restored ∧
    Option.map Profile.status
      ((handleSubmit inp2 sysCode2 freshUid2 now2 auth2 users2).users
        acct2.uid) = some (some "active") ∧
    (handleGoogleRegister gcode gsys g gnow gusers).result = .restored ∧
    Option.map Profile.status
      ((handleGoogleRegister gcode gsys g gnow gusers).users g.uid) =
      some (some "active") ∧
    ((handleGoogleRegister gcode2 gsys2 g2 gnow2 gusers2).result = .denied ↔
      isBannedDoc (gusers2 g2.uid) = true) := by
  have hl : ¬ acct.password.length < 6 := by rw [← hlogin]; exact hlen
  have hl2 : ¬ acct2.password.length < 6 := by rw [← hlogin2]; exact hlen2
  refine ⟨?_, ?_, ?_, ?_, ?_, ?_⟩
  · unfold handleSubmit
    cases hb : isBannedDoc (users acct.uid) with
    | true => simp [hcode, ← hpw, hlen, hl, hacct, hlogin, hb]
    | false => simp [hcode, ← hpw, hlen, hl, hacct, hlogin, hb]
  · unfold handleSubmit
    simp [hcode2, ← hpw2, hlen2, hl2, hacct2, hlogin2, hnodoc2, isBannedDoc]
  · unfold handleSubmit
    simp [hcode2, ← hpw2, hlen2, hl2, hacct2, hlogin2, hnodoc2, isBannedDoc,
      setUser, mergeProfile, mergeField, setupAdminProfile]
  · unfold handleGoogleRegister
    simp [hgcode, hgnodoc, isBannedDoc]
  · unfold handleGoogleRegister
    simp [hgcode, hgnodoc, isBannedDoc, setUser, mergeProfile, mergeField,
      setupAdminProfile]
  · unfold handleGoogleRegister
    cases hb : isBannedDoc (gusers2 g2.uid) with
    | true => simp [hgcode2, hb]
    | false => simp [hgcode2, hb]

/-- Witness for `c9_absent_doc_not_banned`: the banned sample store makes
the email branch deny, the empty store makes both branches restore an
active profile, and the banned store makes the federated branch deny. -/
theorem c9_absent_doc_not_banned_witness :
    ((handleSubmit sampleInput "CODE" "u9" 5 sampleAuth bannedUsers).result =
        .denied ↔ isBannedDoc (bannedUsers "u1") = true) ∧
    (handleSubmit sampleInput "CODE" "u9" 5 sampleAuth emptyUsers).result =
      .restored ∧
    Option.map Profile.status
      ((handleSubmit sampleInput "CODE" "u9" 5 sampleAuth emptyUsers).users
        "u1") = some (some "active") ∧
    (handleGoogleRegister "CODE" "CODE" sampleG 5 emptyUsers).result =
      .restored ∧
    Option.map Profile.status
      ((handleGoogleRegister "CODE" "CODE" sampleG 5 emptyUsers).users "u1") =
      some (some "active") ∧
    ((handleGoogleRegister "CODE" "CODE" sampleG 5 bannedUsers).result =
        .denied ↔ isBannedDoc (bannedUsers "u1") = true) :=
  c9_absent_doc_not_banned sampleInput "CODE" "u9" 5 sampleAuth bannedUsers
    sampleAcct sampleInput "CODE" "u9" 5 sampleAuth emptyUsers sampleAcct
    "CODE" "CODE" sampleG 5 emptyUsers "CODE" "CODE" sampleG 5 bannedUsers
    rfl rfl (by decide) (by decide) (by decide) rfl rfl (by decide)
    (by decide) (by decide) (by decide) rfl (by decide) rfl

/-- C1: when the stored profile of the identity being recovered has
`status = banned`, the email/password recovery branch returns the denied
outcome, signs the session out and leaves the store untouched; no run of
the flow on such an identity returns the restored outcome, and the
federated variant behaves the same way. -/
theorem c1_banned_always_denied
    (inp : RegInput) (sysCode freshUid : String) (now : Nat)
    (auth : String → Option Account) (users : String → Option Profile)
    (acct : Account)
    (inp2 : RegInput) (sysCode2 freshUid2 : String) (now2 : Nat)
    (auth2 : String → Option Account) (users2 : String → Option Profile)
    (acct2 : Account)
    (gcode gsys : String) (g : GoogleUser) (gnow : Nat)
    (gusers : String → Option Profile)
    (hcode : inp.adminCode = sysCode)
    (hpw : inp.password = inp.confirmPassword)
    (hlen : ¬ inp.password.length < 6)
    (hacct : auth inp.email = some acct)
    (hlogin : inp.password = acct.password)
    (hban : isBannedDoc (users acct.uid) = true)
    (hacct2 : auth2 inp2.email = some acct2)
    (hban2 : isBannedDoc (users2 acct2.uid) = true)
    (hgcode : gcode = gsys)
    (hgban : isBannedDoc (gusers g.uid) = true) :
    (handleSubmit inp sysCode freshUid now auth users).result = .denied ∧
    (handleSubmit inp sysCode freshUid now auth users).signedOut = true ∧
    (handleSubmit inp sysCode freshUid now auth users).users = users ∧
    (handleSubmit inp2 sysCode2 freshUid2 now2 auth2 users2).result ≠
      .restored ∧
    (handleGoogleRegister gcode gsys g gnow gusers).result = .denied ∧
    (handleGoogleRegister gcode gsys g gnow gusers).signedOut = true ∧
    (handleGoogleRegister gcode gsys g gnow gusers).users = gusers := by
  have hl : ¬ acct.password.length < 6 := by rw [← hlogin]; exact hlen
  refine ⟨?_, ?_, ?_, ?_, ?_, ?_, ?_⟩
  · unfold handleSubmit
    simp [hcode, ← hpw, hlen, hl, hacct, hlogin, hban]
  · unfold handleSubmit
    simp [hcode, ← hpw, hlen, hl, hacct, hlogin, hban]
  · unfold handleSubmit
    simp [hcode, ← hpw, hlen, hl, hacct, hlogin, hban]
  · unfold handleSubmit
    simp only [hacct2]
    split_ifs <;> simp_all
  · unfold handleGoogleRegister
    simp [hgcode, hgban]
  · unfold handleGoogleRegister
    simp [hgcode, hgban]
  · unfold handleGoogleRegister
    simp [hgcode, hgban]

/-- Witness for `c1_banned_always_denied` over the banned sample store:
both branches deny and sign out, the store is unchanged, and the run does
not return the restored outcome. -/
theorem c1_banned_always_denied_witness :
    (handleSubmit sampleInput "CODE" "u9" 5 sampleAuth bannedUsers).result =
      .denied ∧
    (handleSubmit sampleInput "CODE" "u9" 5 sampleAuth bannedUsers).signedOut =
      true ∧
    (handleSubmit sampleInput "CODE" "u9" 5 sampleAuth bannedUsers).users =
      bannedUsers ∧
    (handleSubmit sampleInput "CODE" "u9" 5 sampleAuth bannedUsers).result ≠
      .restored ∧
    (handleGoogleRegister "CODE" "CODE" sampleG 5 bannedUsers).result =
      .denied ∧
    (handleGoogleRegister "CODE" "CODE" sampleG 5 bannedUsers).signedOut =
      true ∧
    (handleGoogleRegister "CODE" "CODE" sampleG 5 bannedUsers).users =
      bannedUsers :=
  c1_banned_always_denied sampleInput "CODE" "u9" 5 sampleAuth bannedUsers
    sampleAcct sampleInput "CODE" "u9" 5 sampleAuth bannedUsers sampleAcct
    "CODE" "CODE" sampleG 5 bannedUsers rfl rfl (by decide) (by decide)
    (by decide) (by decide) (by decide) (by decide) rfl (by decide)

end CVFMS
